import Mathlib

/-!
Verification development for the Thai fulltext parser plugin.  The
repository holds three revisions of the same plugin:

* `thai_ftparser.cpp` (suffix `orig` below),
* `thai_ftparser_fixed.cpp` (suffix `fixed`),
* `thai_ftparser_emergency_fix.cpp` (suffix `safe`).

Byte buffers are modelled as `List Nat` (one entry per byte, each below
256 in practice).  The embedded Python runtime is external to the
repository, so every call into it is modelled by an oracle parameter:
a flag saying whether runtime/module/entry-point setup succeeds, and a
function from the text actually passed to the tokenizer entry point to
the call's outcome (failure, or a result list whose entries are either
a string of bytes or a non-string item).  Allocation (`malloc`/`calloc`)
is assumed to succeed throughout.  Host plugin return codes are the
inductive `Ret`.
-/

/-- Return codes of the host plugin protocol (`OBP_SUCCESS`,
`OBP_ITER_END`, `OBP_PLUGIN_ERROR`, `OBP_NOT_INIT`, `OBP_INIT_TWICE`,
`OBP_INVALID_ARGUMENT`); only their distinctness matters here. -/
inductive Ret where
  | success
  | iterEnd
  | pluginError
  | notInit
  | initTwice
  | invalidArgument
deriving DecidableEq

/-- Whitespace/control test of `is_thai_text` in the fixed and emergency
revisions: `c < 32 || c == ' ' || c == '\t' || c == '\n' || c == '\r'`. -/
def isWsByte (c : Nat) : Bool :=
  c < 32 || c == 32 || c == 9 || c == 10 || c == 13

/-- Scanning loop of `ObThaiFTParser::is_thai_text` in
`thai_ftparser_fixed.cpp` (lines 403-420) and
`thai_ftparser_emergency_fix.cpp` (lines 500-517), which are identical.
The loop walks an index `i` over the buffer; a byte access `text[j]` is
modelled by `text.get? j`, so an access past the end would surface as
`none` and make the whole run `none`.  The first argument is fuel; the
function is always run with fuel `text.length + 1`, which the loop
cannot exhaust since every step advances `i` by at least one.  Returns
`(thai_char_count, total_char_count)`. -/
def thaiScanIdx : Nat → List Nat → Nat → Option (Nat × Nat)
  | 0, _, _ => none
  | fuel + 1, text, i =>
    if i < text.length then
      match text.get? i with
      | none => none
      | some c =>
        if isWsByte c then
          thaiScanIdx fuel text (i + 1)
        else
          if i + 2 < text.length then
            if c == 0xE0 then
              match text.get? (i + 1) with
              | none => none
              | some c1 =>
                if 0xB8 ≤ c1 && c1 ≤ 0xBB then
                  (thaiScanIdx fuel text (i + 3)).map (fun p => (p.1 + 1, p.2 + 1))
                else
                  (thaiScanIdx fuel text (i + 1)).map (fun p => (p.1, p.2 + 1))
            else
              (thaiScanIdx fuel text (i + 1)).map (fun p => (p.1, p.2 + 1))
          else
            (thaiScanIdx fuel text (i + 1)).map (fun p => (p.1, p.2 + 1))
    else some (0, 0)

/-- Thai/total character counts computed by the ratio-based detector of
the fixed and emergency revisions. -/
def thaiCounts (text : List Nat) : Nat × Nat :=
  (thaiScanIdx (text.length + 1) text 0).getD (0, 0)

/-- Decision of `ObThaiFTParser::is_thai_text` in the fixed and
emergency revisions: `total_char_count > 0 && (thai_char_count * 100 /
total_char_count) > 30` (C integer division), returning the C `int`
result 1 or 0. -/
def is_thai_text (text : List Nat) : Nat :=
  let p := thaiCounts text
  if 0 < p.2 ∧ 30 < p.1 * 100 / p.2 then 1 else 0

/-- Scanning loop of `ObThaiFTParser::is_thai_text` in
`thai_ftparser.cpp` (lines 544-570): a first-match detector that
returns 1 as soon as one full three-byte Thai sequence is found.  Byte
accesses are `text.get?`; fuel as in `thaiScanIdx`. -/
def thaiDetectOrigIdx : Nat → List Nat → Nat → Option Nat
  | 0, _, _ => none
  | fuel + 1, text, i =>
    if i < text.length then
      match text.get? i with
      | none => none
      | some c =>
        if 0xE0 ≤ c && c ≤ 0xEF then
          if i + 2 < text.length then
            match text.get? (i + 1), text.get? (i + 2) with
            | some c2, some c3 =>
              if c == 0xE0 && 0xB8 ≤ c2 && c2 ≤ 0xBB &&
                  ((c2 == 0xB8 && 0x80 ≤ c3) || (c2 == 0xB9 && c3 ≤ 0xFF) ||
                    (c2 == 0xBA && c3 ≤ 0xFF) || (c2 == 0xBB && c3 ≤ 0xBF)) then
                some 1
              else
                thaiDetectOrigIdx fuel text (i + 3)
            | _, _ => none
          else
            thaiDetectOrigIdx fuel text (i + 1)
        else
          thaiDetectOrigIdx fuel text (i + 1)
    else some 0

/-- Decision of the original revision's first-match detector. -/
def is_thai_text_orig (text : List Nat) : Nat :=
  (thaiDetectOrigIdx (text.length + 1) text 0).getD 0

/-- Whitespace set of `tokenize_with_spaces` (all three revisions):
space, tab, newline — and nothing else. -/
def isSpaceTabNl (c : Nat) : Bool :=
  c == 32 || c == 9 || c == 10

/-- Scanning structure of `ObThaiFTParser::tokenize_with_spaces`
(identical loops in all three revisions): skip whitespace, then collect
a maximal non-whitespace run, repeat.  The C function runs this scan
twice (once to count, once to copy); with allocation assumed to succeed
both passes produce exactly this run list.  Fuel as in `thaiScanIdx`:
each step drops at least one byte, so fuel `l.length + 1` suffices. -/
def spaceRunsF : Nat → List Nat → List (List Nat)
  | 0, _ => []
  | fuel + 1, l =>
    match l with
    | [] => []
    | c :: rest =>
      if isSpaceTabNl c then
        spaceRunsF fuel rest
      else
        (c :: rest.takeWhile (fun x => !isSpaceTabNl x)) ::
          spaceRunsF fuel (rest.dropWhile (fun x => !isSpaceTabNl x))

/-- Token list produced by `tokenize_with_spaces` on a byte buffer. -/
def tokenize_with_spaces (l : List Nat) : List (List Nat) :=
  spaceRunsF (l.length + 1) l

/-- Stored token buffer after `tokenize_with_spaces`: when the counting
pass finds no run, `tokens_` stays `nullptr` (modelled `none`);
otherwise every slot is filled (no null entries). -/
def space_tokens (l : List Nat) : Option (List (Option (List Nat))) :=
  match tokenize_with_spaces l with
  | [] => none
  | rs => some (rs.map (fun r => some r))

/-- Per-session state of `ObThaiFTParser`: the init flag, the input
buffer (`start_`/`end_` as the list plus its length), the live-scan
cursor `next_` as an offset, the owned token buffer `tokens_` (`none`
models `nullptr`; entries of `none` model null slots), and the read
cursor `current_token_index_`. -/
structure Session where
  is_inited : Bool := false
  input : List Nat := []
  next_i : Nat := 0
  tokens : Option (List (Option (List Nat))) := none
  cur : Nat := 0
deriving DecidableEq

/-- Output parameters of `get_next_token` (`word`, `word_len`,
`char_len`, `word_freq`), with the zero defaults the fixed and
emergency revisions write before doing anything. -/
structure TokOut where
  word : Option (List Nat) := none
  word_len : Nat := 0
  char_len : Nat := 0
  word_freq : Nat := 0
deriving DecidableEq

/-- External character classifier `obp_charset_ctype` (a host
collaborator): from the remaining bytes it returns whether the leading
character has one of the word classes `UPPER|LOWER|NUMBER`, and the
encoded byte length `mbl` (non-positive values signal invalid input). -/
def Cls : Type := List Nat → Bool × Int

/-- Cursor advance `next += mbl > 0 ? mbl : (mbl < 0 ? -mbl : 1)` used
by the charset live scan of the fixed and emergency revisions. -/
def clsAdv (mbl : Int) : Nat :=
  if 0 < mbl then mbl.toNat else if mbl < 0 then (-mbl).toNat else 1

/-- Word-class test of the live scan: `ctype & (UPPER|LOWER|NUMBER) ||
*next == '_'`. -/
def isWordAt (cls : Cls) (input : List Nat) (next : Nat) : Bool :=
  (cls (input.drop next)).1 || (input.drop next).head? == some 95

/-- Byte advance at a cursor position, from the classifier's `mbl`. -/
def advAt (cls : Cls) (input : List Nat) (next : Nat) : Nat :=
  clsAdv (cls (input.drop next)).2

/-- First inner loop of the live-scan branch of `get_next_token`
(fixed revision lines 512-519): skip characters until a word-class
character or the end.  Fuel as before; the advance is at least 1. -/
def skipNonWord (cls : Cls) (input : List Nat) : Nat → Nat → Nat
  | 0, next => next
  | fuel + 1, next =>
    if next < input.length then
      if isWordAt cls input next then next
      else skipNonWord cls input fuel (next + advAt cls input next)
    else next

/-- Second inner loop (fixed revision lines 525-533): consume the
word-class run, returning the final cursor and the character count
`c_nums`. -/
def scanWordRun (cls : Cls) (input : List Nat) : Nat → Nat → Nat × Nat
  | 0, next => (next, 0)
  | fuel + 1, next =>
    if next < input.length then
      if isWordAt cls input next then
        let r := scanWordRun cls input fuel (next + advAt cls input next)
        (r.1, r.2 + 1)
      else (next, 0)
    else (next, 0)

/-- Outer do-while of the live-scan branch (fixed revision lines
511-545).  Result: the return code, an optional `(word_start_offset,
word_len, char_len)`, and the final cursor. -/
def ftScanLoop (cls : Cls) (input : List Nat) : Nat → Nat → Ret × Option (Nat × Nat × Nat) × Nat
  | 0, next => (Ret.success, none, next)
  | fuel + 1, next =>
    let n1 := skipNonWord cls input (input.length + 1) next
    if n1 < input.length then
      let r := scanWordRun cls input (input.length + 1) n1
      if 0 < r.2 then (Ret.success, some (n1, r.1 - n1, r.2), r.1)
      else if r.1 < input.length then ftScanLoop cls input fuel r.1
      else (Ret.success, none, r.1)
    else (Ret.iterEnd, none, n1)

/-- Null-token skip of the buffered branch (fixed revision lines
490-492): count the leading null slots from the read cursor. -/
def skipNullsFrom : List (Option (List Nat)) → Nat
  | [] => 0
  | none :: rest => skipNullsFrom rest + 1
  | some _ :: _ => 0

/-- Live-scan branch of `get_next_token` in the fixed and emergency
revisions (the `next_ < end_` arm): run the charset scan from `next_`,
and commit the new cursor on both `OBP_SUCCESS` and `OBP_ITER_END`. -/
def ftScanBranch (cls : Cls) (s : Session) : Ret × TokOut × Session :=
  if s.next_i < s.input.length then
    let r := ftScanLoop cls s.input (s.input.length + 1) s.next_i
    match r.2.1 with
    | some wi =>
      (r.1,
        { word := some ((s.input.drop wi.1).take wi.2.1), word_len := wi.2.1,
          char_len := wi.2.2, word_freq := 1 },
        { s with next_i := r.2.2 })
    | none => (r.1, {}, { s with next_i := r.2.2 })
  else (Ret.iterEnd, {}, s)

/-- Model of `ObThaiFTParser::get_next_token` in
`thai_ftparser_fixed.cpp` (lines 473-557): not-inited check returning
the generic `OBP_PLUGIN_ERROR`, then the buffered-token branch (guard
`tokens_ && current_token_index_ < token_count_`, with null-slot
skipping, `char_len = word_len = strlen(token)`, `word_freq = 1`), then
the charset live-scan branch, else `OBP_ITER_END`. -/
def get_next_token_fixed (cls : Cls) (s : Session) : Ret × TokOut × Session :=
  if !s.is_inited then (Ret.pluginError, {}, s)
  else
    match s.tokens with
    | some toks =>
      if s.cur < toks.length then
        match toks.get? (s.cur + skipNullsFrom (toks.drop s.cur)) with
        | some (some w) =>
          (Ret.success,
            { word := some w, word_len := w.length, char_len := w.length, word_freq := 1 },
            { s with cur := s.cur + skipNullsFrom (toks.drop s.cur) + 1 })
        | _ => (Ret.iterEnd, {}, { s with cur := s.cur + skipNullsFrom (toks.drop s.cur) })
      else ftScanBranch cls s
    | none => ftScanBranch cls s

/-- Model of `ObThaiFTParser::get_next_token` in
`thai_ftparser_emergency_fix.cpp` (lines 576-662): an extra
`g_emergency_shutdown` check that returns `OBP_ITER_END`, followed by a
body byte-identical to the fixed revision's. -/
def get_next_token_safe (shutdown : Bool) (cls : Cls) (s : Session) : Ret × TokOut × Session :=
  if shutdown then (Ret.iterEnd, {}, s)
  else get_next_token_fixed cls s

/-- Whitespace live-scan branch of `get_next_token` in
`thai_ftparser.cpp` (lines 600-630): skip space/tab/newline, then take
the following run; `char_len` is set to `word_len` and `next_` advances
only when a word is produced. -/
def wsScanBranchOrig (s : Session) : Ret × TokOut × Session :=
  if s.next_i < s.input.length then
    let n1 := s.next_i + ((s.input.drop s.next_i).takeWhile isSpaceTabNl).length
    if s.input.length ≤ n1 then (Ret.iterEnd, {}, s)
    else
      let rl := ((s.input.drop n1).takeWhile (fun c => !isSpaceTabNl c)).length
      if 0 < rl then
        (Ret.success,
          { word := some ((s.input.drop n1).take rl), word_len := rl,
            char_len := rl, word_freq := 1 },
          { s with next_i := n1 + rl })
      else (Ret.iterEnd, {}, s)
  else (Ret.iterEnd, {}, s)

/-- Model of `ObThaiFTParser::get_next_token` in `thai_ftparser.cpp`
(lines 578-636): not-inited check returning `OBP_NOT_INIT`, buffered
branch without null skipping (a null slot ends iteration), then the
whitespace live scan. -/
def get_next_token_orig (s : Session) : Ret × TokOut × Session :=
  if !s.is_inited then (Ret.notInit, {}, s)
  else
    match s.tokens with
    | some toks =>
      if s.cur < toks.length then
        match toks.get? s.cur with
        | some (some w) =>
          (Ret.success,
            { word := some w, word_len := w.length, char_len := w.length, word_freq := 1 },
            { s with cur := s.cur + 1 })
        | _ => (Ret.iterEnd, {}, s)
      else wsScanBranchOrig s
    | none => wsScanBranchOrig s

/-- Outcome of one call into the Python tokenizer entry point: either a
failure (string creation, call, or non-list result — all collapsed to
`OBP_PLUGIN_ERROR` by the C code) or a result list; each list item is a
string's bytes, or `none` for a non-string item. -/
inductive PyCallResult where
  | err
  | list (items : List (Option (List Nat)))

/-- Oracle for the external runtime: result of the tokenizer call as a
function of the text actually handed to it. -/
def PyOracle : Type := List Nat → PyCallResult

/-- Text passed to the runtime by `tokenize_text` in
`thai_ftparser_fixed.cpp` (line 241: `PyUnicode_FromStringAndSize(
start_, end_ - start_)`) and by `PythonCaller::tokenize` in
`thai_ftparser.cpp` (line 274): the complete buffer, unbounded. -/
def pyInputFixed (l : List Nat) : List Nat := l

/-- Text passed to the runtime by `tokenize_text_safe` in
`thai_ftparser_emergency_fix.cpp` (lines 330-336): truncated to at most
10000 bytes. -/
def pyInputSafe (l : List Nat) : List Nat :=
  if 10000 < l.length then l.take 10000 else l

/-- Storage rule of `tokenize_text` in the fixed revision (lines
282-306): `calloc` zeroes every slot, and a slot is filled only for a
string item with `str_len > 0`. -/
def parse_tokens_fixed (items : List (Option (List Nat))) : List (Option (List Nat)) :=
  items.map (fun it =>
    match it with
    | some s => if 0 < s.length then some s else none
    | none => none)

/-- Storage rule of `tokenize_text_safe` in the emergency revision
(lines 373-403): the result list is capped at 1000 entries and a slot
is filled only for a string item with `0 < str_len < 1000`. -/
def parse_tokens_safe (items : List (Option (List Nat))) : List (Option (List Nat)) :=
  (if 1000 < items.length then items.take 1000 else items).map (fun it =>
    match it with
    | some s => if 0 < s.length ∧ s.length < 1000 then some s else none
    | none => none)

/-- Storage rule of `parse_python_result` in `thai_ftparser.cpp` (lines
309-343): every string item is copied (empty strings included), every
non-string item leaves a null slot. -/
def parse_tokens_orig (items : List (Option (List Nat))) : List (Option (List Nat)) :=
  items.map (fun it => it)

/-- Session state right after the field assignments at the start of a
successful-argument `init` (all revisions): buffer installed, cursors
reset, no token buffer yet. -/
def init_session (input : List Nat) : Session :=
  { is_inited := true, input := input, next_i := 0, tokens := none, cur := 0 }

/-- Model of `ObThaiFTParser::init` in `thai_ftparser_fixed.cpp` (lines
104-150).  `pyInitOk` abstracts the success of
`initialize_python_global` (Python setup, module import, entry-point
resolution, instance construction); `py` is the tokenizer-call oracle.
On Thai-detected text: a setup failure falls back to
`tokenize_with_spaces`, but a failure of `tokenize_text` itself is
returned to the caller unchanged. -/
def init_fixed (pyInitOk : Bool) (py : PyOracle) (input : List Nat) (s : Session) : Ret × Session :=
  if s.is_inited then (Ret.initTwice, s)
  else if input.length = 0 then (Ret.invalidArgument, s)
  else
    let s1 := init_session input
    if is_thai_text input = 1 then
      if pyInitOk then
        match py (pyInputFixed input) with
        | PyCallResult.err => (Ret.pluginError, s1)
        | PyCallResult.list items =>
          (Ret.success, { s1 with tokens := some (parse_tokens_fixed items) })
      else (Ret.success, { s1 with tokens := space_tokens input })
    else (Ret.success, { s1 with tokens := space_tokens input })

/-- Model of `ObThaiFTParser::init` in `thai_ftparser.cpp` (lines
425-464): uses the first-match detector, and Python failures of either
step (`initialize` or `tokenize`) are returned to the caller with no
fallback. -/
def init_orig (pyInitOk : Bool) (py : PyOracle) (input : List Nat) (s : Session) : Ret × Session :=
  if s.is_inited then (Ret.initTwice, s)
  else if input.length = 0 then (Ret.invalidArgument, s)
  else
    let s1 := init_session input
    if is_thai_text_orig input = 1 then
      if pyInitOk then
        match py (pyInputFixed input) with
        | PyCallResult.err => (Ret.pluginError, s1)
        | PyCallResult.list items =>
          (Ret.success, { s1 with tokens := some (parse_tokens_orig items) })
      else (Ret.pluginError, s1)
    else (Ret.success, { s1 with tokens := space_tokens input })

/-- Model of `ObThaiFTParser::init` in
`thai_ftparser_emergency_fix.cpp` (lines 131-191).  With the emergency
flag set, `tokenize_with_spaces` runs on the session's current (still
empty) buffer and init returns immediately.  Otherwise every Python
failure — setup or tokenizer call — falls back to
`tokenize_with_spaces` and init reports success. -/
def init_safe (shutdown pyInitOk : Bool) (py : PyOracle) (input : List Nat) (s : Session) :
    Ret × Session :=
  if shutdown then (Ret.success, { s with tokens := space_tokens s.input })
  else if s.is_inited then (Ret.initTwice, s)
  else if input.length = 0 then (Ret.invalidArgument, s)
  else
    let s1 := init_session input
    if is_thai_text input = 1 then
      if pyInitOk then
        match py (pyInputSafe input) with
        | PyCallResult.err => (Ret.success, { s1 with tokens := space_tokens input })
        | PyCallResult.list items =>
          (Ret.success, { s1 with tokens := some (parse_tokens_safe items) })
      else (Ret.success, { s1 with tokens := space_tokens input })
    else (Ret.success, { s1 with tokens := space_tokens input })

/-- Process-wide runtime bookkeeping shared by all sessions:
`g_ref_count` and `g_python_initialized` (module/class references are
alive exactly while the latter is true). -/
structure PyGlobal where
  refCount : Int
  pyInit : Bool
deriving DecidableEq

/-- Unconditional decrement `g_ref_count--` executed by
`cleanup_python_global` in `thai_ftparser_fixed.cpp` (line 448) under
the mutex, before the teardown test. -/
def cleanup_dec (g : PyGlobal) : PyGlobal :=
  { g with refCount := g.refCount - 1 }

/-- Global part of `ObThaiFTParser::cleanup_python_global` in
`thai_ftparser_fixed.cpp` (lines 430-471).  It is called from `reset()`
for every session, whether or not that session ever completed a
successful acquire: decrement, then tear down module and class and zero
the count whenever the decremented count is `<= 0`. -/
def cleanup_python_global (g : PyGlobal) : PyGlobal :=
  let g1 := cleanup_dec g
  if g1.refCount ≤ 0 then { refCount := 0, pyInit := false } else g1

/-- Global part of `ObThaiFTParser::cleanup_python_safe` in
`thai_ftparser_emergency_fix.cpp` (lines 527-574): an early return when
`instance_has_python_` is false, otherwise decrement, clear the
instance flag, and tear down when the count is `<= 0`. -/
def cleanup_python_safe (g : PyGlobal) (hasPython : Bool) : PyGlobal × Bool :=
  if !hasPython then (g, hasPython)
  else
    let g1 := { g with refCount := g.refCount - 1 }
    if g1.refCount ≤ 0 then ({ refCount := 0, pyInit := false }, false)
    else (g1, false)

/-- Successful tail of `initialize_python_safe` in the emergency
revision (lines 293-295): `g_ref_count++; instance_has_python_ = true`
(with the module loaded, so `g_python_initialized` is true). -/
def acquire_python_safe (g : PyGlobal) : PyGlobal × Bool :=
  ({ refCount := g.refCount + 1, pyInit := true }, true)

/-- Lifecycle operations of the emergency revision observed by the
global Python state: opening a fresh session, a session's
`initialize_python_safe` attempt (successful acquire `acq`, or a failed
attempt `acqFail` which touches the count of no session — the module
may or may not have been loaded, hence the flag), and a session's
`cleanup_python_safe` on destruction (`rel`). -/
inductive RmOp where
  | newSession
  | acq (i : Nat)
  | acqFail (modLoaded : Bool)
  | rel (i : Nat)

/-- One lifecycle step on (global state, per-session
`instance_has_python_` flags).  A successful acquire happens at most
once per session — `init` refuses `OBP_INIT_TWICE` before a second
attempt can reach `initialize_python_safe` — so `acq i` applies only to
a session whose flag is still false. -/
def rm_step (st : PyGlobal × List Bool) (op : RmOp) : PyGlobal × List Bool :=
  match op with
  | RmOp.newSession => (st.1, st.2 ++ [false])
  | RmOp.acq i =>
    match st.2[i]? with
    | some false =>
      let r := acquire_python_safe st.1
      (r.1, st.2.set i r.2)
    | _ => st
  | RmOp.acqFail modLoaded => ({ st.1 with pyInit := st.1.pyInit || modLoaded }, st.2)
  | RmOp.rel i =>
    match st.2[i]? with
    | some b =>
      let r := cleanup_python_safe st.1 b
      (r.1, st.2.set i r.2)
    | none => st

/-- Run of a lifecycle-operation sequence from the process-start state
(count 0, runtime not initialized, no sessions). -/
def rm_run (ops : List RmOp) : PyGlobal × List Bool :=
  ops.foldl rm_step ({ refCount := 0, pyInit := false }, [])

/-- Invariant tying the emergency revision's global reference count to
the sessions: it equals the number of sessions whose
`instance_has_python_` flag is set. -/
def rm_inv (st : PyGlobal × List Bool) : Prop :=
  st.1.refCount = (st.2.count true : Int)

/-- Concrete classifier used for witnesses: ASCII letters and digits
are word characters of byte length 1. -/
def clsAscii : Cls := fun rem =>
  ((match rem.head? with
    | some c => (65 ≤ c && c ≤ 90) || (97 ≤ c && c ≤ 122) || (48 ≤ c && c ≤ 57)
    | none => false), 1)

/-- Concrete classifier treating high bytes as leading a three-byte
word character (as a UTF-8 charset would classify Thai letters) and
lower-case ASCII letters as one-byte word characters. -/
def clsThaiWord : Cls := fun rem =>
  match rem.head? with
  | some c => if 0xE0 ≤ c then (true, 3) else ((97 ≤ c && c ≤ 122), 1)
  | none => (false, 1)

/-- UTF-8 bytes of one Thai character (U+0E01). -/
def exThai : List Nat := [0xE0, 0xB8, 0x81]

/-- Input with 4 Thai characters and 9 ASCII letters: 13 counted
characters, Thai ratio 4/13 (about 30.8 percent). -/
def ex413 : List Nat :=
  exThai ++ exThai ++ exThai ++ exThai ++ [97, 98, 99, 100, 101, 102, 103, 104, 105]

/-- Input with a single stray Thai character inside ASCII text. -/
def exStray : List Nat :=
  exThai ++ [97, 98, 99, 100, 101, 102, 103, 104, 105, 106]

/-- Two ASCII letters, no whitespace. -/
def exAB : List Nat := [97, 98]

/-- Bytes of the text made of the letters a, b and c separated by one
and two spaces. -/
def exABC : List Nat := [97, 32, 98, 32, 32, 99]

/-- Oracle whose tokenizer call always fails. -/
def pyErrOracle : PyOracle := fun _ => PyCallResult.err

/-- Oracle whose tokenizer call returns a one-element list holding an
empty string. -/
def pyEmptyTokOracle : PyOracle := fun _ => PyCallResult.list [some []]

/-- Concrete one-token session used to instantiate general theorems. -/
def exSession : Session :=
  { is_inited := true, input := [77], next_i := 0, tokens := some [some [77]], cur := 0 }

/-- Every byte access of the ratio detector's scan is within bounds:
with enough fuel the instrumented run never returns `none`. -/
lemma thaiScanIdx_isSome : ∀ (fuel : Nat) (text : List Nat) (i : Nat),
    text.length - i < fuel → (thaiScanIdx fuel text i).isSome = true := by
  intro fuel
  induction fuel with
  | zero => intro text i h; omega
  | succ fuel ih =>
    intro text i h
    rw [thaiScanIdx]
    by_cases hi : i < text.length
    · rw [if_pos hi]
      cases hg : text.get? i with
      | none => exact absurd (List.get?_eq_none.mp hg) (by omega)
      | some c =>
        dsimp only
        by_cases hws : isWsByte c = true
        · rw [hws, if_pos rfl]
          exact ih text (i + 1) (by omega)
        · rw [Bool.not_eq_true] at hws
          rw [hws]
          simp only [Bool.false_eq_true, if_false]
          by_cases h2 : i + 2 < text.length
          · rw [if_pos h2]
            by_cases hc : (c == 0xE0) = true
            · rw [hc, if_pos rfl]
              cases hg1 : text.get? (i + 1) with
              | none => exact absurd (List.get?_eq_none.mp hg1) (by omega)
              | some c1 =>
                dsimp only
                by_cases hr : (0xB8 ≤ c1 && c1 ≤ 0xBB) = true
                · rw [hr, if_pos rfl, Option.isSome_map']
                  exact ih text (i + 3) (by omega)
                · rw [Bool.not_eq_true] at hr
                  rw [hr]
                  simp only [Bool.false_eq_true, if_false, Option.isSome_map']
                  exact ih text (i + 1) (by omega)
            · rw [Bool.not_eq_true] at hc
              rw [hc]
              simp only [Bool.false_eq_true, if_false, Option.isSome_map']
              exact ih text (i + 1) (by omega)
          · rw [if_neg h2, Option.isSome_map']
            exact ih text (i + 1) (by omega)
    · rw [if_neg hi]
      rfl

/-- On a buffer shorter than three bytes the ratio detector's guarded
three-byte match can never fire, so the Thai count is zero. -/
lemma thaiScanIdx_small : ∀ (fuel : Nat) (text : List Nat) (i : Nat) (p : Nat × Nat),
    text.length < 3 → thaiScanIdx fuel text i = some p → p.1 = 0 := by
  intro fuel
  induction fuel with
  | zero => intro text i p _ h; simp [thaiScanIdx] at h
  | succ fuel ih =>
    intro text i p hlen h
    rw [thaiScanIdx] at h
    by_cases hi : i < text.length
    · rw [if_pos hi] at h
      cases hg : text.get? i with
      | none => rw [hg] at h; exact absurd (List.get?_eq_none.mp hg) (by omega)
      | some c =>
        rw [hg] at h
        dsimp only at h
        have h2 : ¬ i + 2 < text.length := by omega
        by_cases hws : isWsByte c = true
        · rw [hws, if_pos rfl] at h
          exact ih text (i + 1) p hlen h
        · rw [Bool.not_eq_true] at hws
          rw [hws] at h
          simp only [Bool.false_eq_true, if_false, if_neg h2] at h
          rcases Option.map_eq_some'.mp h with ⟨q, hq, hqp⟩
          have := ih text (i + 1) q hlen hq
          rw [← hqp]
          simpa using this
    · rw [if_neg hi] at h
      cases h
      rfl

/-- Every byte access of the original first-match detector is within
bounds: with enough fuel the instrumented run never returns `none`. -/
lemma thaiDetectOrigIdx_isSome : ∀ (fuel : Nat) (text : List Nat) (i : Nat),
    text.length - i < fuel → (thaiDetectOrigIdx fuel text i).isSome = true := by
  intro fuel
  induction fuel with
  | zero => intro text i h; omega
  | succ fuel ih =>
    intro text i h
    rw [thaiDetectOrigIdx]
    by_cases hi : i < text.length
    · rw [if_pos hi]
      cases hg : text.get? i with
      | none => exact absurd (List.get?_eq_none.mp hg) (by omega)
      | some c =>
        dsimp only
        by_cases hc : (0xE0 ≤ c && c ≤ 0xEF) = true
        · rw [hc, if_pos rfl]
          by_cases h2 : i + 2 < text.length
          · rw [if_pos h2]
            cases hg1 : text.get? (i + 1) with
            | none => exact absurd (List.get?_eq_none.mp hg1) (by omega)
            | some c2 =>
              cases hg2 : text.get? (i + 2) with
              | none => exact absurd (List.get?_eq_none.mp hg2) (by omega)
              | some c3 =>
                dsimp only
                by_cases hm : (c == 0xE0 && 0xB8 ≤ c2 && c2 ≤ 0xBB &&
                    ((c2 == 0xB8 && 0x80 ≤ c3) || (c2 == 0xB9 && c3 ≤ 0xFF) ||
                      (c2 == 0xBA && c3 ≤ 0xFF) || (c2 == 0xBB && c3 ≤ 0xBF))) = true
                · rw [hm, if_pos rfl]; rfl
                · rw [Bool.not_eq_true] at hm
                  rw [hm]
                  simp only [Bool.false_eq_true, if_false]
                  exact ih text (i + 3) (by omega)
          · rw [if_neg h2]
            exact ih text (i + 1) (by omega)
        · rw [Bool.not_eq_true] at hc
          rw [hc]
          simp only [Bool.false_eq_true, if_false]
          exact ih text (i + 1) (by omega)
    · rw [if_neg hi]
      rfl

/-- On a buffer shorter than three bytes the original detector's
guarded three-byte match can never fire, so it reports 0. -/
lemma thaiDetectOrigIdx_small : ∀ (fuel : Nat) (text : List Nat) (i : Nat) (v : Nat),
    text.length < 3 → thaiDetectOrigIdx fuel text i = some v → v = 0 := by
  intro fuel
  induction fuel with
  | zero => intro text i v _ h; simp [thaiDetectOrigIdx] at h
  | succ fuel ih =>
    intro text i v hlen h
    rw [thaiDetectOrigIdx] at h
    by_cases hi : i < text.length
    · rw [if_pos hi] at h
      cases hg : text.get? i with
      | none => exact absurd (List.get?_eq_none.mp hg) (by omega)
      | some c =>
        rw [hg] at h
        dsimp only at h
        have h2 : ¬ i + 2 < text.length := by omega
        by_cases hc : (0xE0 ≤ c && c ≤ 0xEF) = true
        · rw [hc, if_pos rfl, if_neg h2] at h
          exact ih text (i + 1) v hlen h
        · rw [Bool.not_eq_true] at hc
          rw [hc] at h
          simp only [Bool.false_eq_true, if_false] at h
          exact ih text (i + 1) v hlen h
    · rw [if_neg hi] at h
      cases h
      rfl

/-- Dropping a prefix never lengthens a list. -/
lemma dropWhile_length_le (p : Nat → Bool) : ∀ l : List Nat, (l.dropWhile p).length ≤ l.length := by
  intro l
  induction l with
  | nil => simp
  | cons x xs ih =>
    by_cases hx : p x
    · simp only [List.dropWhile_cons, hx, if_true, List.length_cons]
      omega
    · simp [List.dropWhile_cons, hx]

/-- Filtering splits across the take/drop decomposition at the first
element violating the predicate. -/
lemma filter_eq_takeWhile_append (p : Nat → Bool) :
    ∀ l : List Nat, l.filter p = l.takeWhile p ++ (l.dropWhile p).filter p := by
  intro l
  induction l with
  | nil => simp
  | cons x xs ih =>
    by_cases hx : p x
    · simp [List.filter_cons, List.takeWhile_cons, List.dropWhile_cons, hx, ih]
    · simp [List.filter_cons, List.takeWhile_cons, List.dropWhile_cons, hx]

/-- Concatenating the whitespace-scanner runs recovers exactly the
non-whitespace bytes of the input, in order. -/
lemma spaceRunsF_join : ∀ (fuel : Nat) (l : List Nat), l.length < fuel →
    (spaceRunsF fuel l).flatten = l.filter (fun c => !isSpaceTabNl c) := by
  intro fuel
  induction fuel with
  | zero => intro l h; omega
  | succ fuel ih =>
    intro l h
    cases l with
    | nil => simp [spaceRunsF]
    | cons c rest =>
      by_cases hc : isSpaceTabNl c = true
      · rw [spaceRunsF]
        rw [if_pos hc, ih rest (by simp at h; omega)]
        simp [List.filter_cons, hc]
      · rw [Bool.not_eq_true] at hc
        rw [spaceRunsF]
        rw [hc]
        simp only [Bool.false_eq_true, if_false, List.flatten_cons]
        have hd : (rest.dropWhile (fun x => !isSpaceTabNl x)).length < fuel := by
          have := dropWhile_length_le (fun x => !isSpaceTabNl x) rest
          simp at h
          omega
        rw [ih _ hd]
        simp only [List.filter_cons, hc, Bool.not_false, if_pos]
        rw [List.cons_append]
        congr 1
        exact (filter_eq_takeWhile_append (fun x => !isSpaceTabNl x) rest).symm

/-- Every run the whitespace scanner produces is nonempty and free of
space, tab and newline bytes. -/
lemma spaceRunsF_mem : ∀ (fuel : Nat) (l r : List Nat),
    r ∈ spaceRunsF fuel l → r ≠ [] ∧ ∀ c ∈ r, isSpaceTabNl c = false := by
  intro fuel
  induction fuel with
  | zero => intro l r h; simp [spaceRunsF] at h
  | succ fuel ih =>
    intro l r h
    cases l with
    | nil => simp [spaceRunsF] at h
    | cons c rest =>
      rw [spaceRunsF] at h
      by_cases hc : isSpaceTabNl c = true
      · rw [if_pos hc] at h
        exact ih rest r h
      · rw [Bool.not_eq_true] at hc
        rw [hc] at h
        simp only [Bool.false_eq_true, if_false, List.mem_cons] at h
        rcases h with hr | hr
        · subst hr
          refine ⟨by simp, ?_⟩
          intro x hx
          rcases List.mem_cons.mp hx with rfl | hx2
          · exact hc
          · have := List.mem_takeWhile_imp hx2
            simpa using this
        · exact ih _ r hr

/-- Setting a known-`false` slot to `true` adds one to the count of
`true` entries. -/
lemma count_true_set_ft : ∀ (l : List Bool) (i : Nat), l[i]? = some false →
    (l.set i true).count true = l.count true + 1 := by
  intro l
  induction l with
  | nil => intro i h; simp at h
  | cons x xs ih =>
    intro i h
    cases i with
    | zero =>
      simp only [List.getElem?_cons_zero] at h
      injection h with h
      subst h
      simp [List.set, List.count_cons]
    | succ n =>
      simp only [List.getElem?_cons_succ] at h
      simp only [List.set, List.count_cons, ih n h]
      omega

/-- Setting a known-`true` slot to `false` removes one from the count
of `true` entries, which is therefore positive. -/
lemma count_true_set_tf : ∀ (l : List Bool) (i : Nat), l[i]? = some true →
    (l.set i false).count true + 1 = l.count true := by
  intro l
  induction l with
  | nil => intro i h; simp at h
  | cons x xs ih =>
    intro i h
    cases i with
    | zero =>
      simp only [List.getElem?_cons_zero] at h
      injection h with h
      subst h
      simp [List.set, List.count_cons]
    | succ n =>
      simp only [List.getElem?_cons_succ] at h
      simp only [List.set, List.count_cons]
      have := ih n h
      omega

/-- Overwriting a known-`false` slot with `false` leaves the count of
`true` entries unchanged. -/
lemma count_true_set_ff : ∀ (l : List Bool) (i : Nat), l[i]? = some false →
    (l.set i false).count true = l.count true := by
  intro l
  induction l with
  | nil => intro i h; simp at h
  | cons x xs ih =>
    intro i h
    cases i with
    | zero =>
      simp only [List.getElem?_cons_zero] at h
      injection h with h
      subst h
      simp [List.set, List.count_cons]
    | succ n =>
      simp only [List.getElem?_cons_succ] at h
      simp only [List.set, List.count_cons, ih n h]

/-- One lifecycle step of the emergency revision preserves the
refcount-equals-acquired-sessions invariant. -/
lemma rm_step_inv (st : PyGlobal × List Bool) (op : RmOp) (h : rm_inv st) :
    rm_inv (rm_step st op) := by
  unfold rm_inv at h ⊢
  cases op with
  | newSession =>
    simp only [rm_step, List.count_append]
    simp [h]
  | acqFail b =>
    simpa [rm_step] using h
  | acq i =>
    cases hg : st.2[i]? with
    | none => simpa [rm_step, hg] using h
    | some b =>
      cases b
      · have hc := count_true_set_ft st.2 i hg
        simp only [rm_step, hg, acquire_python_safe]
        rw [hc]
        push_cast
        omega
      · simpa [rm_step, hg] using h
  | rel i =>
    cases hg : st.2[i]? with
    | none => simpa [rm_step, hg] using h
    | some b =>
      cases b
      · have hc := count_true_set_ff st.2 i hg
        simp only [rm_step, hg, cleanup_python_safe, Bool.not_false, if_true]
        rw [hc]
        exact h
      · have hc := count_true_set_tf st.2 i hg
        simp only [rm_step, hg, cleanup_python_safe, Bool.not_true, Bool.false_eq_true, if_false]
        by_cases hz : st.1.refCount - 1 ≤ 0
        · rw [if_pos hz]
          push_cast at h ⊢
          omega
        · rw [if_neg hz]
          push_cast at h ⊢
          omega

/-- The invariant holds along any fold of lifecycle steps. -/
lemma rm_run_inv_aux : ∀ (ops : List RmOp) (st : PyGlobal × List Bool),
    rm_inv st → rm_inv (ops.foldl rm_step st) := by
  intro ops
  induction ops with
  | nil => intro st h; exact h
  | cons op ops ih =>
    intro st h
    exact ih _ (rm_step_inv st op h)

/-- In the emergency revision, the only step that clears the global
initialized flag is a release that brings the count to zero. -/
lemma rm_step_teardown (st : PyGlobal × List Bool) (op : RmOp)
    (h1 : st.1.pyInit = true) (h2 : (rm_step st op).1.pyInit = false) :
    (rm_step st op).1.refCount = 0 := by
  cases op with
  | newSession =>
    simp only [rm_step] at h2
    exact absurd h2 (by simp [h1])
  | acqFail b =>
    simp only [rm_step] at h2
    simp [h1] at h2
  | acq i =>
    cases hg : st.2[i]? with
    | none =>
      simp only [rm_step, hg] at h2
      exact absurd h2 (by simp [h1])
    | some b =>
      cases b
      · simp only [rm_step, hg, acquire_python_safe] at h2
        exact absurd h2 (by simp)
      · simp only [rm_step, hg] at h2
        exact absurd h2 (by simp [h1])
  | rel i =>
    cases hg : st.2[i]? with
    | none =>
      simp only [rm_step, hg] at h2
      exact absurd h2 (by simp [h1])
    | some b =>
      cases b
      · simp only [rm_step, hg, cleanup_python_safe, Bool.not_false, if_true] at h2
        exact absurd h2 (by simp [h1])
      · simp only [rm_step, hg, cleanup_python_safe, Bool.not_true, Bool.false_eq_true,
          if_false] at h2 ⊢
        by_cases hz : st.1.refCount - 1 ≤ 0
        · rw [if_pos hz]
        · rw [if_neg hz] at h2
          exact absurd h2 (by simp [h1])

/-- C4 (counterexample).  On an input with 4 Thai characters among 13
counted characters the Thai ratio 4/13 strictly exceeds 30 percent
(400 > 390), yet the ratio detector of the fixed and emergency
revisions answers false, because integer division makes its test
`(4 * 100) / 13 = 30 > 30`.  This refutes the claim that the detector
returns true exactly when the ratio strictly exceeds 30 percent. -/
theorem C4_counterexample :
    thaiCounts ex413 = (4, 13) ∧ 30 * 13 < 4 * 100 ∧ is_thai_text ex413 = 0 := by
  decide

/-- C4 (amended).  The ratio detector of the fixed and emergency
revisions returns true exactly when the counted total is positive and
`31 * total <= thai * 100`, i.e. when the integer quotient
`thai * 100 / total` exceeds 30; moreover the original revision's
detector is first-match: it answers true on a single stray Thai
sequence inside ASCII text, where the ratio detector answers false. -/
theorem C4_theorem :
    (∀ text : List Nat, is_thai_text text = 1 ↔
      0 < (thaiCounts text).2 ∧ 31 * (thaiCounts text).2 ≤ (thaiCounts text).1 * 100) ∧
    is_thai_text_orig exStray = 1 ∧ is_thai_text exStray = 0 := by
  refine ⟨?_, by decide, by decide⟩
  intro text
  unfold is_thai_text
  by_cases h : 0 < (thaiCounts text).2 ∧ 30 < (thaiCounts text).1 * 100 / (thaiCounts text).2
  · rw [if_pos h]
    constructor
    · intro _
      exact ⟨h.1, (Nat.le_div_iff_mul_le h.1).mp h.2⟩
    · intro _
      rfl
  · rw [if_neg h]
    constructor
    · intro h01
      exact absurd h01 (by omega)
    · intro hr
      exact absurd ⟨hr.1, (Nat.le_div_iff_mul_le hr.1).mpr hr.2⟩ h

/-- C4 (witness). -/
theorem C4_witness : is_thai_text exThai = 1 :=
  (C4_theorem.1 exThai).mpr (by decide)

/-- C8.  The script detectors only read bytes at indices inside the
buffer: the instrumented scans, in which any out-of-bounds access
returns `none`, always produce a value, for the ratio detector of the
fixed and emergency revisions and for the first-match detector of the
original revision alike.  On a buffer shorter than 3 bytes (and, by
the structure of the guard `i + 2 < len`, for a lead byte at the final
one or two positions) the three-byte sequence match never fires, so the
Thai count is zero and the first-match detector reports 0 while the
scan simply continues. -/
theorem C8_theorem : ∀ text : List Nat,
    (thaiScanIdx (text.length + 1) text 0).isSome = true ∧
    (thaiDetectOrigIdx (text.length + 1) text 0).isSome = true ∧
    (text.length < 3 → (thaiCounts text).1 = 0 ∧ is_thai_text_orig text = 0) := by
  intro text
  refine ⟨thaiScanIdx_isSome _ text 0 (by omega),
    thaiDetectOrigIdx_isSome _ text 0 (by omega), ?_⟩
  intro hlen
  constructor
  · unfold thaiCounts
    cases hs : thaiScanIdx (text.length + 1) text 0 with
    | none =>
      have := thaiScanIdx_isSome (text.length + 1) text 0 (by omega)
      rw [hs] at this
      simp at this
    | some p =>
      simpa using thaiScanIdx_small (text.length + 1) text 0 p hlen hs
  · unfold is_thai_text_orig
    cases hs : thaiDetectOrigIdx (text.length + 1) text 0 with
    | none =>
      have := thaiDetectOrigIdx_isSome (text.length + 1) text 0 (by omega)
      rw [hs] at this
      simp at this
    | some v =>
      simpa using thaiDetectOrigIdx_small (text.length + 1) text 0 v hlen hs

/-- C8 (witness): a two-byte buffer whose first byte is a Thai lead
byte is scanned without any match. -/
theorem C8_witness : (thaiCounts [0xE0, 0xB8]).1 = 0 ∧ is_thai_text_orig [0xE0, 0xB8] = 0 :=
  (C8_theorem [0xE0, 0xB8]).2.2 (by decide)

/-- C9.  The whitespace scanner splits its input into the maximal runs
of bytes other than space, tab and newline, in left-to-right order:
flattening the runs recovers exactly the non-whitespace bytes in order,
every run is nonempty and whitespace-free, and on the input made of
the letters a, b, c separated by one and two spaces the session yields
exactly the tokens a, b, c in order, each with byte length equal to
character count and frequency 1. -/
theorem C9_theorem :
    tokenize_with_spaces exABC = [[97], [98], [99]] ∧
    (∀ l : List Nat, (tokenize_with_spaces l).flatten = l.filter (fun c => !isSpaceTabNl c)) ∧
    (∀ l r : List Nat, r ∈ tokenize_with_spaces l →
      r ≠ [] ∧ ∀ c ∈ r, isSpaceTabNl c = false) ∧
    (get_next_token_fixed clsAscii (init_fixed true pyErrOracle exABC {}).2).2.1 =
      { word := some [97], word_len := 1, char_len := 1, word_freq := 1 } ∧
    (get_next_token_fixed clsAscii
        (get_next_token_fixed clsAscii (init_fixed true pyErrOracle exABC {}).2).2.2).2.1 =
      { word := some [98], word_len := 1, char_len := 1, word_freq := 1 } ∧
    (get_next_token_fixed clsAscii
        (get_next_token_fixed clsAscii
          (get_next_token_fixed clsAscii
            (init_fixed true pyErrOracle exABC {}).2).2.2).2.2).2.1 =
      { word := some [99], word_len := 1, char_len := 1, word_freq := 1 } := by
  refine ⟨by decide, ?_, ?_, by decide, by decide, by decide⟩
  · intro l
    exact spaceRunsF_join (l.length + 1) l (by omega)
  · intro l r h
    exact spaceRunsF_mem (l.length + 1) l r h

/-- C9 (witness). -/
theorem C9_witness : ([97] : List Nat) ≠ [] ∧ ∀ c ∈ ([97] : List Nat), isSpaceTabNl c = false :=
  C9_theorem.2.2.1 [97] [97] (by decide)

/-- C10.  Whenever `get_next_token` answers out of the buffered token
list (the branch guarded by `tokens_ && current_token_index_ <
token_count_`) with success, the reported character count equals the
reported byte length, the frequency is 1, and the byte length is the
stored token's length — in the fixed/emergency revisions and in the
original revision alike. -/
theorem C10_theorem : ∀ (cls : Cls) (s : Session) (toks : List (Option (List Nat))),
    s.tokens = some toks → s.cur < toks.length →
    (((get_next_token_fixed cls s).1 = Ret.success →
        (get_next_token_fixed cls s).2.1.char_len = (get_next_token_fixed cls s).2.1.word_len ∧
        (get_next_token_fixed cls s).2.1.word_freq = 1 ∧
        ∃ w, (get_next_token_fixed cls s).2.1.word = some w ∧
          (get_next_token_fixed cls s).2.1.word_len = w.length) ∧
     ((get_next_token_orig s).1 = Ret.success →
        (get_next_token_orig s).2.1.char_len = (get_next_token_orig s).2.1.word_len ∧
        (get_next_token_orig s).2.1.word_freq = 1 ∧
        ∃ w, (get_next_token_orig s).2.1.word = some w ∧
          (get_next_token_orig s).2.1.word_len = w.length)) := by
  intro cls s toks ht hc
  constructor
  · unfold get_next_token_fixed
    rw [ht]
    dsimp only
    split
    · intro h
      exact absurd h (by simp)
    · split
      · intro _
        exact ⟨rfl, rfl, _, rfl, rfl⟩
      · intro h
        exact absurd h (by simp)
  · unfold get_next_token_orig
    rw [ht]
    dsimp only
    split
    · intro h
      exact absurd h (by simp)
    · split
      · intro _
        exact ⟨rfl, rfl, _, rfl, rfl⟩
      · intro h
        exact absurd h (by simp)

/-- C10 (witness). -/
theorem C10_witness :
    (get_next_token_fixed clsAscii exSession).2.1.char_len =
      (get_next_token_fixed clsAscii exSession).2.1.word_len :=
  (((C10_theorem clsAscii exSession [some [77]]) rfl (by decide)).1 (by decide)).1

/-- C3 (code bug).  A session over the non-Thai input made of the two
letters a and b buffers the single whitespace token ab; the first
`get_next_token` call returns it and exhausts the buffer, yet the
second call succeeds again by live charset scanning of the same input
(the `next_ < end_` branch, since `next_` was never advanced while
serving buffered tokens), so the session yields tokens from both the
buffered list and the live scanner. -/
theorem C3_theorem :
    (init_fixed true pyErrOracle exAB {}).2.tokens = some [some [97, 98]] ∧
    (get_next_token_fixed clsAscii (init_fixed true pyErrOracle exAB {}).2).1 = Ret.success ∧
    (get_next_token_fixed clsAscii (init_fixed true pyErrOracle exAB {}).2).2.1.word =
      some [97, 98] ∧
    (get_next_token_fixed clsAscii (init_fixed true pyErrOracle exAB {}).2).2.2.cur = 1 ∧
    (get_next_token_fixed clsAscii
        (get_next_token_fixed clsAscii (init_fixed true pyErrOracle exAB {}).2).2.2).1 =
      Ret.success ∧
    (get_next_token_fixed clsAscii
        (get_next_token_fixed clsAscii (init_fixed true pyErrOracle exAB {}).2).2.2).2.1.word =
      some [97, 98] := by
  decide

/-- C5 (code bug).  A Thai-detected session whose runtime call returns
the one-element list holding an empty string stores a buffer with a
single null slot; the first `get_next_token` call reports
`OBP_ITER_END`, yet the next call returns a token again through the
live charset scan branch, resurrecting tokens after the iteration had
ended. -/
theorem C5_theorem :
    (init_fixed true pyEmptyTokOracle exThai {}).1 = Ret.success ∧
    (init_fixed true pyEmptyTokOracle exThai {}).2.tokens = some [none] ∧
    (get_next_token_fixed clsThaiWord (init_fixed true pyEmptyTokOracle exThai {}).2).1 =
      Ret.iterEnd ∧
    (get_next_token_fixed clsThaiWord
        (get_next_token_fixed clsThaiWord (init_fixed true pyEmptyTokOracle exThai {}).2).2.2).1 =
      Ret.success ∧
    (get_next_token_fixed clsThaiWord
        (get_next_token_fixed clsThaiWord
          (init_fixed true pyEmptyTokOracle exThai {}).2).2.2).2.1.word = some exThai := by
  decide

/-- C7 (counterexample).  On a session whose init never ran, the fixed
revision's `get_next_token` fails with the generic `OBP_PLUGIN_ERROR`,
not with `OBP_NOT_INIT` as the claim states. -/
theorem C7_counterexample :
    (get_next_token_fixed clsAscii {}).1 = Ret.pluginError ∧
    (get_next_token_fixed clsAscii {}).1 ≠ Ret.notInit ∧
    (get_next_token_fixed clsAscii {}).2.1.word = none := by
  decide

/-- C7 (amended).  On every session whose init flag is unset,
`get_next_token` yields no token and fails: with `OBP_NOT_INIT` in the
original revision, but with the generic `OBP_PLUGIN_ERROR` in the fixed
and emergency revisions (the emergency revision also requires the
emergency-shutdown flag to be clear, else it reports `OBP_ITER_END`). -/
theorem C7_theorem : ∀ (cls : Cls) (s : Session), s.is_inited = false →
    (get_next_token_orig s).1 = Ret.notInit ∧
    (get_next_token_orig s).2.1.word = none ∧
    (get_next_token_fixed cls s).1 = Ret.pluginError ∧
    (get_next_token_fixed cls s).2.1.word = none ∧
    (get_next_token_safe false cls s).1 = Ret.pluginError := by
  intro cls s h
  simp [get_next_token_orig, get_next_token_fixed, get_next_token_safe, h]

/-- C7 (witness). -/
theorem C7_witness : (get_next_token_orig {}).1 = Ret.notInit :=
  (C7_theorem clsAscii {} rfl).1

/-- C1 (counterexample).  On the Thai-detected three-byte input, with
runtime setup succeeding but the tokenizer invocation failing, the
fixed revision's `init` returns `OBP_PLUGIN_ERROR` to its caller
instead of falling back and returning success — so the
runtime-unavailable failure does surface to the host through
`ftparser_scan_begin`, refuting the claim for this revision. -/
theorem C1_counterexample :
    is_thai_text exThai = 1 ∧
    (init_fixed true pyErrOracle exThai {}).1 = Ret.pluginError ∧
    (init_fixed true pyErrOracle exThai {}).1 ≠ Ret.success := by
  decide

/-- C1 (amended).  In the emergency revision the claim holds: on every
Thai-detected fresh session, any Python failure — setup or tokenizer
invocation — makes `init` fall back to the whitespace tokens of the
same input and return success.  In the fixed revision only a setup
failure falls back this way (an invocation failure is returned to the
caller, as the counterexample shows), and in the original revision
neither failure falls back. -/
theorem C1_theorem : ∀ (py : PyOracle) (pyOk : Bool) (input : List Nat) (s : Session),
    s.is_inited = false → 0 < input.length → is_thai_text input = 1 →
    (pyOk = false ∨ py (pyInputSafe input) = PyCallResult.err) →
    init_safe false pyOk py input s =
      (Ret.success, { init_session input with tokens := space_tokens input }) ∧
    init_fixed false py input s =
      (Ret.success, { init_session input with tokens := space_tokens input }) := by
  intro py pyOk input s hini hlen hthai hfail
  have h0 : ¬ input.length = 0 := by omega
  constructor
  · unfold init_safe
    rw [if_neg (by simp)]
    rw [hini]
    simp only [Bool.false_eq_true, if_false, if_neg h0, hthai, if_pos rfl]
    cases pyOk with
    | false => simp
    | true =>
      rcases hfail with h | h
      · exact absurd h (by simp)
      · simp [h]
  · unfold init_fixed
    rw [hini]
    simp [h0, hthai]

/-- C1 (witness). -/
theorem C1_witness :
    init_safe false true pyErrOracle exThai {} =
      (Ret.success, { init_session exThai with tokens := space_tokens exThai }) :=
  (C1_theorem pyErrOracle true exThai {} rfl (by decide) (by decide) (Or.inr rfl)).1

/-- C2 (counterexample).  In the fixed revision, `cleanup_python_global`
runs for every session being reset, acquired or not: from a global
state where one other session holds the single reference, a release by
a session that never acquired drops the count from 1 to 0 and tears the
runtime down — not a no-op — and from a zero count the unconditional
`g_ref_count--` leaves the counter at -1 before the teardown test. -/
theorem C2_counterexample :
    cleanup_python_global { refCount := 1, pyInit := true } =
      { refCount := 0, pyInit := false } ∧
    (cleanup_dec { refCount := 0, pyInit := false }).refCount < 0 := by
  decide

/-- C2 (amended).  In the emergency revision the claim holds: under
every sequence of lifecycle operations the global reference count
equals the number of sessions currently holding the runtime, hence is
never negative; `cleanup_python_safe` on a session that never completed
a successful acquire is a no-op; and the global initialized flag is
cleared only by a step that brings the count to zero.  In the fixed
revision `cleanup_python_global` decrements unconditionally, as the
counterexample shows. -/
theorem C2_theorem :
    (∀ ops : List RmOp, rm_inv (rm_run ops) ∧ 0 ≤ (rm_run ops).1.refCount) ∧
    (∀ g : PyGlobal, cleanup_python_safe g false = (g, false)) ∧
    (∀ (st : PyGlobal × List Bool) (op : RmOp), st.1.pyInit = true →
      (rm_step st op).1.pyInit = false → (rm_step st op).1.refCount = 0) := by
  refine ⟨?_, ?_, ?_⟩
  · intro ops
    have hinv : rm_inv (rm_run ops) := by
      unfold rm_run
      exact rm_run_inv_aux ops _ (by simp [rm_inv])
    refine ⟨hinv, ?_⟩
    rw [hinv]
    exact Int.natCast_nonneg _
  · intro g
    rfl
  · intro st op h1 h2
    exact rm_step_teardown st op h1 h2

/-- C2 (witness). -/
theorem C2_witness :
    (rm_step ({ refCount := 1, pyInit := true }, [true]) (RmOp.rel 0)).1.refCount = 0 :=
  C2_theorem.2.2 ({ refCount := 1, pyInit := true }, [true]) (RmOp.rel 0) (by decide) (by decide)

/-- C6 (counterexample).  The fixed revision's `tokenize_text` passes
the whole buffer to the runtime — on a 50000-byte input the text handed
to `PyUnicode_FromStringAndSize` is 50000 bytes long, not bounded by
10000 — while the emergency revision truncates the same input to 10000
bytes. -/
theorem C6_counterexample :
    (pyInputFixed (List.replicate 50000 97)).length = 50000 ∧
    ¬ (pyInputFixed (List.replicate 50000 97)).length ≤ 10000 ∧
    (pyInputSafe (List.replicate 50000 97)).length = 10000 := by
  have hr : (List.replicate 50000 (97 : Nat)).length = 50000 := List.length_replicate 50000 97
  refine ⟨?_, ?_, ?_⟩
  · rw [pyInputFixed, hr]
  · rw [pyInputFixed, hr]
    decide
  · rw [pyInputSafe, if_pos (by rw [hr]; decide), List.length_take, hr]
    omega

/-- C6 (amended).  In the emergency revision the claim holds: the text
passed to the runtime is at most 10000 bytes (longer input is truncated
by `take`, not rejected), the stored result list has at most 1000
slots, every stored token is at most 1000 bytes, and whenever the
(truncated) call returns a list — in particular for over-long input —
`init` succeeds with that stored result.  The fixed revision applies no
bound at all, as the counterexample shows. -/
theorem C6_theorem : ∀ (input : List Nat) (items : List (Option (List Nat))),
    (pyInputSafe input).length ≤ 10000 ∧
    (parse_tokens_safe items).length ≤ 1000 ∧
    (∀ t ∈ parse_tokens_safe items, ∀ w : List Nat, t = some w → w.length ≤ 1000) ∧
    (∀ (py : PyOracle) (s : Session), s.is_inited = false → 0 < input.length →
      is_thai_text input = 1 → py (pyInputSafe input) = PyCallResult.list items →
      (init_safe false true py input s).1 = Ret.success ∧
      (init_safe false true py input s).2.tokens = some (parse_tokens_safe items)) := by
  intro input items
  refine ⟨?_, ?_, ?_, ?_⟩
  · rw [pyInputSafe]
    by_cases h : 10000 < input.length
    · rw [if_pos h, List.length_take]
      exact Nat.min_le_left _ _
    · rw [if_neg h]
      omega
  · rw [parse_tokens_safe, List.length_map]
    by_cases h : 1000 < items.length
    · rw [if_pos h, List.length_take]
      exact Nat.min_le_left _ _
    · rw [if_neg h]
      omega
  · intro t ht w hw
    rw [parse_tokens_safe] at ht
    rcases List.mem_map.mp ht with ⟨a, _, rfl⟩
    cases a with
    | none => simp at hw
    | some u =>
      dsimp only at hw
      by_cases hu : 0 < u.length ∧ u.length < 1000
      · rw [if_pos hu] at hw
        injection hw with hw
        subst hw
        omega
      · rw [if_neg hu] at hw
        simp at hw
  · intro py s hini hlen hthai hpy
    have h0 : ¬ input.length = 0 := by omega
    unfold init_safe
    rw [if_neg (by simp)]
    rw [hini]
    simp [h0, hthai, hpy]

/-- C6 (witness). -/
theorem C6_witness :
    (init_safe false true (fun _ => PyCallResult.list [some [97]]) exThai {}).1 = Ret.success :=
  ((C6_theorem exThai [some [97]]).2.2.2 (fun _ => PyCallResult.list [some [97]]) {} rfl
    (by decide) (by decide) rfl).1
